import Mathlib

/-!
Shallow embedding of the zap chat client (TypeScript/GJS sources) for checking
its natural-language specification.

Embedded source files:
* `src/shared/models/chat.model.ts` — data model (`Chat`, `Message`, `MessageStatus`,
  `User`, `ChatServiceResponse`, pagination records).
* `src/shared/services/chat-service.ts` — `ChatService` (chats/messages collections,
  `getMessages`, `getChat`, `markChatAsRead`, `sendMessage`, `addChat`, `deleteChat`,
  `setCurrentUser`).
* `src/features/chat/chat-view/chat-view.ts` — `ChatView` controller: construction
  (`vfunc_constructed`), the row-activation callback installed by `initializeChatList`,
  `loadMessagesForChat`, `showWelcomeScreen`.
* `src/features/chat/chat-list-item/chat-list-item.ts` — `ChatListItem.setChatData`,
  `ChatListItem.updateUnreadCount`.
* `src/features/chat/components/message-bubble/message-bubble.ts` —
  `MessageBubble.setMessageData`, `MessageBubble.updateStatusIcon`.
* `src/shared/utils/formatting.ts` — `formatTimestamp`, `getRelativeTime`.

Modelling conventions:
* JavaScript numbers that only ever hold small non-negative integers (ids, counts,
  page numbers) are `Nat`; clock arithmetic (milliseconds since epoch, which may go
  negative in differences) is `Int`, with `Int.fdiv`/`Int.fmod` for JavaScript's
  `Math.floor` division.
* `{success, data|error}` service responses are the inductive `Resp`.
* Widget state (label texts, visibility flags, CSS classes, icon names) is carried in
  explicit records; the GTK widget tree itself (children, scrolling, focus) is not
  modelled.  Template children are modelled as always present: claims about the
  null-widget fallbacks would be claims about the host toolkit, not this code.
* In-place mutation of a JS object found by `Array.prototype.find` is modelled by
  rewriting the first matching list element (`zeroUnreadFirst`, `updateChatLast`),
  which is what the aliasing in the source does.
* The host clock (`new Date()`) and locale renderers (`toLocaleTimeString`,
  `toLocaleDateString`) are explicit: the current time is a `DateTime` argument and
  the locale is fixed to the en-US-style renderings the mock data itself uses
  ("10:30 AM", "Yesterday", weekday / month-day shorts).
-/

/-- MessageStatus from chat.model.ts.  The enum has exactly the four members
SENT, DELIVERED, READ, FAILED; there is no PENDING member, a message simply
may lack a status (`status?: MessageStatus`). -/
inductive MessageStatus where
  | sent
  | delivered
  | read
  | failed
deriving DecidableEq

/-- Chat record from chat.model.ts (`avatar?` is never set anywhere in the
sources and is omitted). -/
structure Chat where
  id : Nat
  name : String
  lastMessage : String
  timestamp : String
  unreadCount : Nat
deriving DecidableEq, Inhabited

/-- Message record from chat.model.ts. -/
structure Message where
  id : Nat
  chatId : Nat
  text : String
  timestamp : String
  isOwn : Bool
  sender : Option String := none
  status : Option MessageStatus := none
deriving DecidableEq, Inhabited

/-- User record from chat.model.ts (`avatar?`/`status?` unused by the embedded code). -/
structure User where
  id : String
  name : String
  phoneNumber : String
deriving DecidableEq

/-- ChatServiceResponse from chat.model.ts: `{success: true, data}` or
`{success: false, error}`. -/
inductive Resp (α : Type) where
  | ok (data : α)
  | err (error : String)
deriving DecidableEq

/-- Whether a response is the unsuccessful (`success: false`) shape. -/
def Resp.isErr {α : Type} : Resp α → Bool
  | .ok _ => false
  | .err _ => true

/-- PaginationData from chat.model.ts. -/
structure PaginationData where
  page : Nat
  pageSize : Nat
  totalItems : Nat
  totalPages : Nat
deriving DecidableEq

/-- PaginatedMessageList from chat.model.ts. -/
structure PaginatedMessageList where
  messages : List Message
  pagination : PaginationData
deriving DecidableEq

/-- JavaScript string primitives are modelled structurally over the character
list so that every proof can evaluate them (Lean's own `String.trim`/`splitOn`
are defined by well-founded recursion on byte positions, which the kernel does
not unfold).  `isWsChar` covers the whitespace the embedded inputs can contain. -/
def isWsChar (c : Char) : Bool := c == ' ' || c == '\t' || c == '\n' || c == '\r'

/-- JavaScript `String.prototype.trim`. -/
def jsTrim (s : String) : String :=
  String.mk (((s.data.dropWhile isWsChar).reverse.dropWhile isWsChar).reverse)

/-- Accumulator pass of `jsSplit`. -/
def jsSplitAux (sep : Char) : List Char → List Char → List String
  | [], acc => [String.mk acc.reverse]
  | c :: rest, acc =>
      if c == sep then String.mk acc.reverse :: jsSplitAux sep rest []
      else jsSplitAux sep rest (c :: acc)

/-- JavaScript `String.prototype.split` with a one-character separator. -/
def jsSplit (s : String) (sep : Char) : List String := jsSplitAux sep s.data []

/-- JavaScript `String.prototype.includes` with a one-character needle. -/
def jsContains (s : String) (c : Char) : Bool := s.data.contains c

/-- JavaScript `Number(...)` on the digit substrings the well-formed inputs
produce (NaN propagation for malformed strings is not modelled: a non-numeric
field parses as 0). -/
def parseNat (s : String) : Nat :=
  if s.data ≠ [] ∧ s.data.all (fun c => c.isDigit) then
    s.data.foldl (fun n c => n * 10 + (c.toNat - 48)) 0
  else 0

/-- JavaScript `Math.ceil(a / b)` for the Nat pagination arithmetic
(`Math.ceil(length / pageSize)`). -/
def ceilDiv (a b : Nat) : Nat := (a + b - 1) / b

/-- JavaScript `Array.prototype.slice(start, stop)` for the in-range indices the
service uses. -/
def listSlice {α : Type} (l : List α) (start stop : Nat) : List α :=
  (l.drop start).take (stop - start)

/-- The four mock chats.  The same literal array appears twice in the sources:
`ChatService.initializeMockData` (chat-service.ts) and
`ChatView.loadDataFromService` (chat-view.ts). -/
def mockChats : List Chat :=
  [ { id := 1, name := "Alice Johnson", lastMessage := "See you tomorrow!",
      timestamp := "10:30 AM", unreadCount := 0 },
    { id := 2, name := "Bob Smith", lastMessage := "Thanks for the help",
      timestamp := "9:15 AM", unreadCount := 3 },
    { id := 3, name := "Team Chat", lastMessage := "Meeting at 2 PM",
      timestamp := "Yesterday", unreadCount := 1 },
    { id := 4, name := "Charlie Brown", lastMessage := "Did you see the game?",
      timestamp := "Yesterday", unreadCount := 0 } ]

/-- The five mock messages of `ChatService.initializeMockData` (all for chat 1). -/
def serviceMockMessages : List Message :=
  [ { id := 1, chatId := 1, text := "Hey, how are you doing?",
      timestamp := "10:00 AM", isOwn := false },
    { id := 2, chatId := 1, text := "I'm doing great! Just finished that project.",
      timestamp := "10:05 AM", isOwn := true },
    { id := 3, chatId := 1, text := "That's awesome! Can you share the details?",
      timestamp := "10:10 AM", isOwn := false },
    { id := 4, chatId := 1, text := "Sure, I'll send you the files later today.",
      timestamp := "10:15 AM", isOwn := true },
    { id := 5, chatId := 1, text := "See you tomorrow!",
      timestamp := "10:30 AM", isOwn := false } ]

/-- The mock messages `ChatView.loadMessagesForChat` fabricates for a selected
chat (same five texts, but stamped with the requested `chatId`). -/
def mockMessagesFor (chatId : Nat) : List Message :=
  [ { id := 1, chatId := chatId, text := "Hey, how are you doing?",
      timestamp := "10:00 AM", isOwn := false },
    { id := 2, chatId := chatId, text := "I'm doing great! Just finished that project.",
      timestamp := "10:05 AM", isOwn := true },
    { id := 3, chatId := chatId, text := "That's awesome! Can you share the details?",
      timestamp := "10:10 AM", isOwn := false },
    { id := 4, chatId := chatId, text := "Sure, I'll send you the files later today.",
      timestamp := "10:15 AM", isOwn := true },
    { id := 5, chatId := chatId, text := "See you tomorrow!",
      timestamp := "10:30 AM", isOwn := false } ]

/-- Mutable state of the singleton ChatService (chat-service.ts): the `chats`
and `messages` arrays and the logged-in user. -/
structure ServiceState where
  chats : List Chat
  messages : List Message
  currentUser : Option User
deriving DecidableEq

/-- ChatService state right after the constructor ran `initializeMockData`. -/
def ServiceState.initial : ServiceState :=
  { chats := mockChats, messages := serviceMockMessages, currentUser := none }

/-- ChatService.setCurrentUser. -/
def ChatService.setCurrentUser (st : ServiceState) (user : User) : ServiceState :=
  { st with currentUser := some user }

/-- ChatService.getMessages: filter by chatId, slice by page, wrap with pagination.
The chats/messages arrays are not modified, so only the response is returned. -/
def ChatService.getMessages (st : ServiceState) (chatId page pageSize : Nat) :
    Resp PaginatedMessageList :=
  let chatMessages := st.messages.filter (fun msg => msg.chatId == chatId)
  let startIndex := (page - 1) * pageSize
  let endIndex := startIndex + pageSize
  let paginatedMessages := listSlice chatMessages startIndex endIndex
  .ok { messages := paginatedMessages,
        pagination := { page := page, pageSize := pageSize,
                        totalItems := chatMessages.length,
                        totalPages := ceilDiv chatMessages.length pageSize } }

/-- ChatService.getChat: `find` by id, "Chat not found" otherwise. -/
def ChatService.getChat (st : ServiceState) (chatId : Nat) : Resp Chat :=
  match st.chats.find? (fun c => c.id == chatId) with
  | some chat => .ok chat
  | none => .err "Chat not found"

/-- The in-place `chat.unreadCount = 0` of `markChatAsRead`: the object returned
by `this.chats.find` is the first matching array element, so exactly that
element is rewritten. -/
def zeroUnreadFirst : List Chat → Nat → List Chat
  | [], _ => []
  | c :: rest, chatId =>
      if c.id == chatId then { c with unreadCount := 0 } :: rest
      else c :: zeroUnreadFirst rest chatId

/-- ChatService.markChatAsRead: zero the found chat's unreadCount, else
"Chat not found". -/
def ChatService.markChatAsRead (st : ServiceState) (chatId : Nat) :
    Resp Unit × ServiceState :=
  match st.chats.find? (fun c => c.id == chatId) with
  | some _ => (.ok (), { st with chats := zeroUnreadFirst st.chats chatId })
  | none => (.err "Chat not found", st)

/-- The in-place `chat.lastMessage = ...; chat.timestamp = ...` of `sendMessage`
(again on the first element `find` returns; no match, no change). -/
def updateChatLast : List Chat → Nat → String → String → List Chat
  | [], _, _, _ => []
  | c :: rest, chatId, text, ts =>
      if c.id == chatId then { c with lastMessage := text, timestamp := ts } :: rest
      else c :: updateChatLast rest chatId text ts

/-- ChatService.sendMessage.  `now` is the string the source obtains from
`new Date().toLocaleTimeString(...)` — the host clock rendered by the locale,
passed in explicitly here.  The JS guard `!text || text.trim().length === 0`
collapses to `text.trim() == ""` for strings (the only falsy string is `""`,
whose trim is also empty). -/
def ChatService.sendMessage (st : ServiceState) (chatId : Nat) (text : String)
    (now : String) : Resp Message × ServiceState :=
  match st.currentUser with
  | none => (.err "No user logged in", st)
  | some _ =>
      if jsTrim text == "" then (.err "Message cannot be empty", st)
      else
        let newMessage : Message :=
          { id := st.messages.length + 1, chatId := chatId, text := jsTrim text,
            timestamp := now, isOwn := true }
        let chats := updateChatLast st.chats chatId (jsTrim text) newMessage.timestamp
        (.ok newMessage, { st with messages := st.messages ++ [newMessage], chats := chats })

/-- The argument of ChatService.addChat: `Omit<Chat, "id">`. -/
structure NewChat where
  name : String
  lastMessage : String
  timestamp : String
  unreadCount : Nat
deriving DecidableEq

/-- ChatService.addChat: assign `id = chats.length + 1` and unshift onto the array. -/
def ChatService.addChat (st : ServiceState) (chat : NewChat) : Resp Chat × ServiceState :=
  let newChat : Chat :=
    { id := st.chats.length + 1, name := chat.name, lastMessage := chat.lastMessage,
      timestamp := chat.timestamp, unreadCount := chat.unreadCount }
  (.ok newChat, { st with chats := newChat :: st.chats })

/-- ChatService.deleteChat: splice out the chat at `findIndex`, drop its messages. -/
def ChatService.deleteChat (st : ServiceState) (chatId : Nat) :
    Resp Unit × ServiceState :=
  match st.chats.findIdx? (fun c => c.id == chatId) with
  | some chatIndex =>
      (.ok (), { st with chats := st.chats.eraseIdx chatIndex,
                         messages := st.messages.filter (fun msg => msg.chatId != chatId) })
  | none => (.err "Chat not found", st)

/-- Observable state of the ChatView controller (chat-view.ts): its `chats`,
`messages`, `currentChatId` and `userName` fields, the visibility of the
welcome container and of the chat content, and the messages the ChatContent
child currently displays (`ChatContent.loadMessages` / `clearMessages`). -/
structure ViewState where
  chats : List Chat
  messages : List Message
  currentChatId : Option Nat
  welcomeVisible : Bool
  contentVisible : Bool
  contentMessages : List Message
  userName : String
deriving DecidableEq

/-- ChatView.showWelcomeScreen: reset the header label to "Chat", hide the chat
content, (re)attach and show the welcome screen.  It touches nothing else — in
particular it does not change `currentChatId`. -/
def ChatView.showWelcomeScreen (st : ViewState) : ViewState :=
  { st with userName := "Chat", contentVisible := false, welcomeVisible := true }

/-- The intermediate states of one conversation-selection transition, in source
order: the row-activation callback of `initializeChatList` runs
`setUserName(name)`, hides the welcome container, sets `currentChatId`, and then
calls `loadMessagesForChat`, whose try-block stores the fetched messages, hides
the welcome container again and shows/loads the chat content, and whose
catch-block clears `messages` and the ChatContent instead.  `fetch` is the
outcome of fabricating the mock messages (`some msgs` on success, `none` when
the try-block throws — the path the catch handler covers). -/
def ChatView.selectSteps (st : ViewState) (chat : Chat)
    (fetch : Option (List Message)) : List ViewState :=
  let s1 := { st with userName := chat.name }
  let s2 := { s1 with welcomeVisible := false }
  let s3 := { s2 with currentChatId := some chat.id }
  match fetch with
  | some msgs =>
      let s4 := { s3 with messages := msgs }
      let s5 := { s4 with welcomeVisible := false }
      let s6 := { s5 with contentVisible := true, contentMessages := msgs }
      [s1, s2, s3, s4, s5, s6]
  | none =>
      let s4 := { s3 with messages := [] }
      let s5 := { s4 with contentMessages := [] }
      [s1, s2, s3, s4, s5]

/-- The final state of one conversation-selection transition. -/
def ChatView.selectChat (st : ViewState) (chat : Chat)
    (fetch : Option (List Message)) : ViewState :=
  (ChatView.selectSteps st chat fetch).getLastD st

/-- ChatView state once `vfunc_constructed` finished: `loadDataFromService`
populated `chats` with the mock list and emptied `messages`, then
`showWelcomeScreen` ran on the fresh widget (no chat selected yet). -/
def ViewState.constructed : ViewState :=
  ChatView.showWelcomeScreen
    { chats := mockChats, messages := [], currentChatId := none,
      welcomeVisible := true, contentVisible := false, contentMessages := [],
      userName := "" }

/-- The user-driven events of the chat view: activating the i-th row of the
list (rows were created one per chat, in order), and showing the welcome
screen. -/
inductive Event where
  | select (i : Nat)
  | showWelcome

/-- One event against the view.  Row activation uses the chat captured in the
row's closure and the always-succeeding mock fetch of `loadMessagesForChat`;
an index without a row does nothing. -/
def ChatView.step (st : ViewState) : Event → ViewState
  | .select i =>
      match st.chats[i]? with
      | some chat => ChatView.selectChat st chat (some (mockMessagesFor chat.id))
      | none => st
  | .showWelcome => ChatView.showWelcomeScreen st

/-- The view state reached from construction by a sequence of events. -/
def ChatView.run (evs : List Event) : ViewState :=
  evs.foldl ChatView.step ViewState.constructed

/-- The THREAD panel is the one on screen when the chat content is shown and
the welcome container is hidden. -/
def ViewState.threadActive (st : ViewState) : Bool :=
  st.contentVisible && !st.welcomeVisible

/-- Visible state of one ChatListItem row (chat-list-item.ts): the stored
`chatData` plus the bound widget properties. -/
structure ListItemState where
  chatData : Option Chat := none
  title : String := ""
  subtitle : String := ""
  avatarText : String := ""
  timestampLabel : String := ""
  badgeVisible : Bool := false
  badgeLabel : String := ""
deriving DecidableEq, Inhabited

/-- ChatListItem.setChatData: bind title/subtitle/avatar/timestamp, and show the
unread badge with the count's decimal rendering when `unreadCount > 0`, hide it
otherwise (the label is only written in the positive branch). -/
def ChatListItem.setChatData (item : ListItemState) (chat : Chat) : ListItemState :=
  { item with
    chatData := some chat,
    title := chat.name,
    subtitle := chat.lastMessage,
    avatarText := chat.name,
    timestampLabel := chat.timestamp,
    badgeVisible := chat.unreadCount > 0,
    badgeLabel := if chat.unreadCount > 0 then toString chat.unreadCount else item.badgeLabel }

/-- ChatListItem.updateUnreadCount: only acts when chat data was bound; writes
the count into the stored record and recomputes the badge. -/
def ChatListItem.updateUnreadCount (item : ListItemState) (count : Nat) : ListItemState :=
  match item.chatData with
  | none => item
  | some cd =>
      let item1 := { item with chatData := some { cd with unreadCount := count } }
      if count > 0 then
        { item1 with badgeVisible := true, badgeLabel := toString count }
      else
        { item1 with badgeVisible := false }

/-- Horizontal alignment of the bubble container (Gtk.Align.START / END). -/
inductive Align where
  | start
  | end'
deriving DecidableEq, Inhabited

/-- Gtk `add_css_class` (classes form a set). -/
def addCssClass (classes : List String) (c : String) : List String :=
  if classes.contains c then classes else classes ++ [c]

/-- Gtk `remove_css_class`. -/
def removeCssClass (classes : List String) (c : String) : List String :=
  classes.filter (fun x => x != c)

/-- Visible state of one MessageBubble (message-bubble.ts). -/
structure BubbleState where
  messageData : Option Message := none
  messageText : String := ""
  timestampLabel : String := ""
  statusVisible : Bool := false
  statusIconName : String := ""
  statusTooltip : String := ""
  halign : Align := Align.start
  cssClasses : List String := []
deriving DecidableEq, Inhabited

/-- MessageBubble.updateStatusIcon: early-return unless the stored message is an
own message; then the switch on `status`, whose default branch (reached exactly
when the message has no status) shows the "sending" icon. -/
def MessageBubble.updateStatusIcon (b : BubbleState) (status : Option MessageStatus) :
    BubbleState :=
  match b.messageData with
  | none => b
  | some m =>
      if !m.isOwn then b
      else
        match status with
        | some .sent =>
            { b with statusIconName := "emblem-default-symbolic", statusTooltip := "Sent" }
        | some .delivered =>
            { b with statusIconName := "emblem-ok-symbolic", statusTooltip := "Delivered" }
        | some .read =>
            { b with statusIconName := "emblem-read-symbolic", statusTooltip := "Read" }
        | some .failed =>
            { b with statusIconName := "dialog-error-symbolic",
                     statusTooltip := "Failed to send" }
        | none =>
            { b with statusIconName := "emblem-synchronizing-symbolic",
                     statusTooltip := "Sending..." }

/-- MessageBubble.setMessageData: store the record, bind text and timestamp,
align right / mark own and show + refresh the status icon for own messages,
align left / mark other and hide it otherwise. -/
def MessageBubble.setMessageData (b : BubbleState) (m : Message) : BubbleState :=
  let b1 := { b with messageData := some m, messageText := m.text,
                     timestampLabel := m.timestamp }
  if m.isOwn then
    let b2 := { b1 with
      halign := Align.end',
      cssClasses := removeCssClass (addCssClass b1.cssClasses "own-message") "other-message",
      statusVisible := true }
    MessageBubble.updateStatusIcon b2 m.status
  else
    { b1 with
      halign := Align.start,
      cssClasses := removeCssClass (addCssClass b1.cssClasses "other-message") "own-message",
      statusVisible := false }

/-- A point in time as the formatting code consumes it: a civil day index
(days since the Unix epoch) and the milliseconds elapsed within that day.
`new Date()` values decompose this way; `getTime` recombines them. -/
structure DateTime where
  day : Int
  msOfDay : Int
deriving DecidableEq

/-- JavaScript `Date.prototype.getTime` (milliseconds since epoch). -/
def DateTime.getTime (d : DateTime) : Int := d.day * 86400000 + d.msOfDay

/-- `new Date(ms)`: split milliseconds since epoch back into day and time of day
(floor semantics, as JavaScript dates use). -/
def DateTime.ofMs (ms : Int) : DateTime :=
  { day := Int.fdiv ms 86400000, msOfDay := Int.fmod ms 86400000 }

/-- Two-digit rendering used by the fixed locale model. -/
def pad2 (n : Nat) : String := if n < 10 then "0" ++ toString n else toString n

/-- The locale model of `toLocaleTimeString([], {hour: "2-digit", minute:
"2-digit"})`: 12-hour clock with AM/PM, the format the mock data itself uses. -/
def localeTimeHM (d : DateTime) : String :=
  let totalMin := (Int.fdiv d.msOfDay 60000).toNat
  let h := totalMin / 60 % 24
  let m := totalMin % 60
  let h12 := if h % 12 == 0 then 12 else h % 12
  pad2 h12 ++ ":" ++ pad2 m ++ " " ++ (if h < 12 then "AM" else "PM")

/-- Short weekday names for `toLocaleDateString([], {weekday: "short"})`
(day 0 of the epoch was a Thursday). -/
def weekdayShortNames : List String := ["Sun", "Mon", "Tue", "Wed", "Thu", "Fri", "Sat"]

/-- The locale model of `toLocaleDateString([], {weekday: "short"})`. -/
def localeWeekdayShort (d : DateTime) : String :=
  weekdayShortNames.getD (Int.fmod (d.day + 4) 7).toNat ""

/-- Short month names for `toLocaleDateString([], {month: "short", day: "numeric"})`. -/
def monthShortNames : List String :=
  ["Jan", "Feb", "Mar", "Apr", "May", "Jun", "Jul", "Aug", "Sep", "Oct", "Nov", "Dec"]

/-- Civil date (year, month, day-of-month) from a day index (standard
days-to-civil conversion over the proleptic Gregorian calendar). -/
def civilFromDays (z0 : Int) : Int × Nat × Nat :=
  let z := z0 + 719468
  let era := Int.fdiv z 146097
  let doe := (z - era * 146097).toNat
  let yoe := (doe - doe / 1460 + doe / 36524 - doe / 146096) / 365
  let doy := doe - (365 * yoe + yoe / 4 - yoe / 100)
  let mp := (5 * doy + 2) / 153
  let dom := doy - (153 * mp + 2) / 5 + 1
  let m := if mp < 10 then mp + 3 else mp - 9
  ((yoe : Int) + era * 400 + (if m ≤ 2 then 1 else 0), m, dom)

/-- Day index from a civil date (inverse of `civilFromDays`). -/
def daysFromCivil (y : Int) (m d : Nat) : Int :=
  let y' := if m ≤ 2 then y - 1 else y
  let era := Int.fdiv y' 400
  let yoe := (y' - era * 400).toNat
  let mp := if m > 2 then m - 3 else m + 9
  let doy := (153 * mp + 2) / 5 + d - 1
  let doe := yoe * 365 + yoe / 4 - yoe / 100 + doy
  era * 146097 + (doe : Int) - 719468

/-- The locale model of `toLocaleDateString([], {month: "short", day: "numeric"})`. -/
def localeMonthDay (dt : DateTime) : String :=
  let ymd := civilFromDays dt.day
  monthShortNames.getD (ymd.2.1 - 1) "" ++ " " ++ toString ymd.2.2

/-- The host's `new Date(string)` parser for the numeric date strings the
"/"- and "-"-branch of formatTimestamp can meet: ISO-style `Y-M-D` and
US-style `M/D/Y`.  Other strings (JavaScript's Invalid Date) are not modelled. -/
def jsDateParse (s : String) : DateTime :=
  if jsContains s '-' then
    match (jsSplit s '-').map parseNat with
    | [y, m, d] => { day := daysFromCivil (y : Int) m d, msOfDay := 0 }
    | _ => { day := 0, msOfDay := 0 }
  else
    match (jsSplit s '/').map parseNat with
    | [m, d, y] => { day := daysFromCivil (y : Int) m d, msOfDay := 0 }
    | _ => { day := 0, msOfDay := 0 }

/-- getRelativeTime (formatting.ts): bucket `now - date` into "just now",
minutes/hours/days/weeks/months/years ago. -/
def getRelativeTime (date now : DateTime) : String :=
  let diff := now.getTime - date.getTime
  let seconds := Int.fdiv diff 1000
  let minutes := Int.fdiv seconds 60
  let hours := Int.fdiv minutes 60
  let days := Int.fdiv hours 24
  let weeks := Int.fdiv days 7
  let months := Int.fdiv days 30
  let years := Int.fdiv days 365
  if seconds < 60 then "just now"
  else if minutes < 60 then
    toString minutes ++ " minute" ++ (if minutes > 1 then "s" else "") ++ " ago"
  else if hours < 24 then
    toString hours ++ " hour" ++ (if hours > 1 then "s" else "") ++ " ago"
  else if days < 7 then
    toString days ++ " day" ++ (if days > 1 then "s" else "") ++ " ago"
  else if weeks < 4 then
    toString weeks ++ " week" ++ (if weeks > 1 then "s" else "") ++ " ago"
  else if months < 12 then
    toString months ++ " month" ++ (if months > 1 then "s" else "") ++ " ago"
  else
    toString years ++ " year" ++ (if years > 1 then "s" else "") ++ " ago"

/-- The options record of formatTimestamp.  `format` stands for the
`Intl.DateTimeFormatOptions`-driven host renderer: an arbitrary function of the
date. -/
structure FormatOptions where
  relative : Bool := false
  timeOnly : Bool := false
  dateOnly : Bool := false
  format : Option (DateTime → String) := none

/-- formatTimestamp accepts `string | Date`. -/
inductive TimestampInput where
  | str (s : String)
  | date (d : DateTime)

/-- The time-string branch of formatTimestamp: parse "H:MM AM/PM" and anchor it
to today's date (`new Date(today.getFullYear(), today.getMonth(),
today.getDate(), hour24, minutes)`). -/
def parseTimeString (s : String) (now : DateTime) : DateTime :=
  let parts := jsSplit s ' '
  let time := parts.getD 0 ""
  let period := parts.getD 1 ""
  let nums := (jsSplit time ':').map parseNat
  let hours := nums.getD 0 0
  let minutes := nums.getD 1 0
  let hour24a := if period == "PM" && hours != 12 then hours + 12 else hours
  let hour24 := if period == "AM" && hours == 12 then 0 else hour24a
  { day := now.day, msOfDay := ((hour24 * 60 + minutes : Nat) : Int) * 60000 }

/-- formatTimestamp (formatting.ts).  `now` is the value every `new Date()` in
the body reads from the host clock. -/
def formatTimestamp (ts : TimestampInput) (opts : FormatOptions) (now : DateTime) :
    String :=
  let date : DateTime :=
    match ts with
    | .date d => d
    | .str s =>
        if jsContains s ':' then parseTimeString s now
        else if jsContains s '/' || jsContains s '-' then jsDateParse s
        else if ["Today", "Yesterday", "Tomorrow"].contains s then
          match s with
          | "Today" => now
          | "Yesterday" => DateTime.ofMs (now.getTime - 24 * 60 * 60 * 1000)
          | "Tomorrow" => DateTime.ofMs (now.getTime + 24 * 60 * 60 * 1000)
          | _ => now
        else now
  if opts.relative then getRelativeTime date now
  else
    match opts.format with
    | some f => f date
    | none =>
        if opts.timeOnly then localeTimeHM date
        else if opts.dateOnly then localeMonthDay date
        else
          let diff := now.getTime - date.getTime
          let daysDiff := Int.fdiv diff 86400000
          if daysDiff = 0 then localeTimeHM date
          else if daysDiff = 1 then "Yesterday"
          else if daysDiff < 7 then localeWeekdayShort date
          else localeMonthDay date

/-- A service state with a user logged in (as `login` does through
`ChatService.setCurrentUser`), for exercising `sendMessage`'s success path. -/
def stWithUser : ServiceState :=
  ChatService.setCurrentUser ServiceState.initial
    { id := "u1", name := "Test User", phoneNumber := "+12345678901" }

/-! ## Theorems -/

/-- Helper for C1: every single event preserves "the THREAD panel on screen
implies a non-null currentChatId". -/
theorem step_preserves_thread (st : ViewState) (e : Event)
    (h : st.threadActive = true → st.currentChatId.isSome = true) :
    (ChatView.step st e).threadActive = true →
      (ChatView.step st e).currentChatId.isSome = true := by
  cases e with
  | showWelcome =>
      intro hT
      simp [ChatView.step, ChatView.showWelcomeScreen, ViewState.threadActive] at hT
  | select i =>
      cases hrow : st.chats[i]? with
      | none => simpa [ChatView.step, hrow] using h
      | some chat =>
          simp [ChatView.step, hrow, ChatView.selectChat, ChatView.selectSteps,
            List.getLastD]

/-- C1 (amended): for every reachable state of the chat view, if the THREAD
panel is the one on screen (chat content shown, welcome hidden) then the active
conversation id is non-null.  This is the direction of the claimed invariant
that survives; the converse is refuted by `showWelcomeScreen_keeps_currentChatId`. -/
theorem threadPanel_requires_activeChat (evs : List Event) :
    (ChatView.run evs).threadActive = true →
      (ChatView.run evs).currentChatId.isSome = true := by
  have main : ∀ (l : List Event) (st : ViewState),
      (st.threadActive = true → st.currentChatId.isSome = true) →
      ((l.foldl ChatView.step st).threadActive = true →
        (l.foldl ChatView.step st).currentChatId.isSome = true) := by
    intro l
    induction l with
    | nil => intro st h; simpa using h
    | cons e rest ih =>
        intro st h
        simpa only [List.foldl_cons] using ih _ (step_preserves_thread st e h)
  exact main evs ViewState.constructed (by decide)

/-- C1 witness: after selecting the first conversation the THREAD panel is on
screen, and indeed the active conversation id is non-null. -/
theorem threadPanel_requires_activeChat_witness :
    (ChatView.run [Event.select 0]).currentChatId.isSome = true :=
  threadPanel_requires_activeChat [Event.select 0] (by decide)

/-- C1 counterexample: running showWelcomeScreen after selecting conversation 1
yields a reachable state whose active panel is WELCOME (not THREAD) while the
active conversation id is still 1 — `showWelcomeScreen` does not null
`currentChatId`, so both the claimed iff-invariant and "after showWelcomeScreen
the active conversation id is null" fail. -/
theorem showWelcomeScreen_keeps_currentChatId :
    (ChatView.run [Event.select 0, Event.showWelcome]).threadActive = false ∧
    (ChatView.run [Event.select 0, Event.showWelcome]).currentChatId = some 1 := by
  decide

/-- C3 counterexample: inside a single selection transition, the third
intermediate state (after `currentChatId` was assigned, before
`loadMessagesForChat` stored anything) already has the active conversation id
set while `messages` is still empty — the state mutation precedes the fetch. -/
theorem selection_mutates_state_before_fetch :
    ((ChatView.selectSteps ViewState.constructed (mockChats.getD 0 default)
        (some (mockMessagesFor 1))).getD 2 ViewState.constructed).currentChatId = some 1 ∧
    ((ChatView.selectSteps ViewState.constructed (mockChats.getD 0 default)
        (some (mockMessagesFor 1))).getD 2 ViewState.constructed).messages = [] := by
  decide

/-- C3 (amended): the view-state mutation happens before the fetch (see
`selection_mutates_state_before_fetch`), but at the end of a selection whose
fetch succeeded — and the synchronous mock fetch always succeeds — the final
state does pair the active conversation id with the loaded, non-empty message
list, shown in the chat content. -/
theorem selection_final_state_consistent (st : ViewState) (chat : Chat) :
    (ChatView.selectChat st chat (some (mockMessagesFor chat.id))).currentChatId
        = some chat.id ∧
    (ChatView.selectChat st chat (some (mockMessagesFor chat.id))).messages
        = mockMessagesFor chat.id ∧
    (ChatView.selectChat st chat (some (mockMessagesFor chat.id))).contentVisible = true ∧
    (ChatView.selectChat st chat (some (mockMessagesFor chat.id))).messages.length = 5 :=
  ⟨rfl, rfl, rfl, rfl⟩

/-- C4 counterexample: selecting a conversation whose message fetch fails, from
the freshly constructed state (welcome panel visible), leaves the welcome
container hidden: the row-activation callback hides it before calling
`loadMessagesForChat`, and the catch handler never restores it — the previously
visible panel does not remain visible. -/
theorem failed_fetch_hides_welcome :
    (ChatView.selectChat ViewState.constructed (mockChats.getD 0 default)
        none).welcomeVisible = false := by
  decide

/-- C4 (amended): when the message fetch of a selection fails, the welcome
container ends up hidden (it was hidden before the fetch and is not restored),
while no thread content is shown: the chat content's visibility is left exactly
as it was, its displayed messages are cleared, the controller's message list is
emptied, and the active conversation id has already been switched to the
selected chat. -/
theorem failed_fetch_no_thread_shown (st : ViewState) (chat : Chat) :
    (ChatView.selectChat st chat none).welcomeVisible = false ∧
    (ChatView.selectChat st chat none).contentVisible = st.contentVisible ∧
    (ChatView.selectChat st chat none).messages = [] ∧
    (ChatView.selectChat st chat none).contentMessages = [] ∧
    (ChatView.selectChat st chat none).currentChatId = some chat.id :=
  ⟨rfl, rfl, rfl, rfl, rfl⟩

/-- C5: conversation ids are not unique.  `addChat` assigns
`id = chats.length + 1`; starting from the initial mock data, deleting chat 1
and then adding a chat produces the id sequence [4, 2, 3, 4]: the new chat
receives id 4, which the existing "Charlie Brown" chat already carries.  This
contradicts chat.model.ts's own documentation of `Chat.id` ("Unique identifier
for the chat"). -/
theorem addChat_after_delete_duplicates_id :
    ((ChatService.addChat (ChatService.deleteChat ServiceState.initial 1).2
        { name := "Eve", lastMessage := "", timestamp := "", unreadCount := 0 }).2).chats.map
        (fun c => c.id) = [4, 2, 3, 4] := by
  decide

/-- Helper for C2: zeroing the unread count of the first chat that `find`
returns makes the found chat's unread count 0. -/
theorem zeroUnreadFirst_find (l : List Chat) (chatId : Nat) (c : Chat)
    (h : l.find? (fun x => x.id == chatId) = some c) :
    (zeroUnreadFirst l chatId).find? (fun x => x.id == chatId)
      = some { c with unreadCount := 0 } := by
  induction l with
  | nil => simp [List.find?] at h
  | cons hd tl ih =>
      cases hhd : hd.id == chatId with
      | true =>
          simp only [List.find?, hhd] at h
          cases h
          simp [zeroUnreadFirst, hhd, List.find?]
      | false =>
          simp only [List.find?, hhd] at h
          simpa [zeroUnreadFirst, hhd, List.find?] using ih h

/-- C2 counterexample: after activating the row of conversation 2 ("Bob Smith",
3 unread), the conversation record still carries unreadCount 3 — the
row-activation callback never calls `ChatService.markChatAsRead` or
`ChatListItem.updateUnreadCount`, so selecting does not clear the counter. -/
theorem selection_leaves_unreadCount :
    (((ChatView.run [Event.select 1]).chats.find? (fun c => c.id == 2)).map
        (fun c => c.unreadCount)) = some 3 := by
  decide

/-- C2 (amended): selecting a conversation leaves every conversation record
unchanged (in particular its unreadCount); the machinery the claim describes
exists but is not invoked by selection: `ChatService.markChatAsRead` does set
the found conversation's unreadCount to 0 and reports success, and
`ChatListItem.updateUnreadCount 0` does hide the row's unread badge. -/
theorem markChatAsRead_and_badge_reset :
    (∀ (st : ViewState) (i : Nat), (ChatView.step st (Event.select i)).chats = st.chats) ∧
    (∀ (st : ServiceState) (chatId : Nat) (c : Chat),
        st.chats.find? (fun x => x.id == chatId) = some c →
        (ChatService.markChatAsRead st chatId).1 = Resp.ok () ∧
        (ChatService.markChatAsRead st chatId).2.chats.find? (fun x => x.id == chatId)
          = some { c with unreadCount := 0 }) ∧
    (∀ (item : ListItemState) (cd : Chat), item.chatData = some cd →
        (ChatListItem.updateUnreadCount item 0).badgeVisible = false) := by
  refine ⟨?_, ?_, ?_⟩
  · intro st i
    cases hrow : st.chats[i]? <;>
      simp [ChatView.step, hrow, ChatView.selectChat, ChatView.selectSteps, List.getLastD]
  · intro st chatId c h
    refine ⟨?_, ?_⟩
    · simp [ChatService.markChatAsRead, h]
    · simp only [ChatService.markChatAsRead, h]
      exact zeroUnreadFirst_find st.chats chatId c h
  · intro item cd h
    simp [ChatListItem.updateUnreadCount, h]

/-- C2 witness: on the initial service state, marking chat 2 as read succeeds
and zeroes its unread count, and updating a bound row to count 0 hides its
badge. -/
theorem markChatAsRead_and_badge_reset_witness :
    ((ChatService.markChatAsRead ServiceState.initial 2).1 = Resp.ok () ∧
      (ChatService.markChatAsRead ServiceState.initial 2).2.chats.find?
          (fun x => x.id == 2)
        = some { ({ id := 2, name := "Bob Smith", lastMessage := "Thanks for the help",
                    timestamp := "9:15 AM", unreadCount := 3 } : Chat) with
                  unreadCount := 0 }) ∧
    (ChatListItem.updateUnreadCount
        (ChatListItem.setChatData {} (mockChats.getD 1 default)) 0).badgeVisible = false :=
  ⟨markChatAsRead_and_badge_reset.2.1 ServiceState.initial 2
      { id := 2, name := "Bob Smith", lastMessage := "Thanks for the help",
        timestamp := "9:15 AM", unreadCount := 3 } (by decide),
    markChatAsRead_and_badge_reset.2.2
      (ChatListItem.setChatData {} (mockChats.getD 1 default))
      (mockChats.getD 1 default) rfl⟩

/-- C6: for every chat bound by `ChatListItem.setChatData` and every count
passed to `ChatListItem.updateUnreadCount` on a row with bound chat data, the
unread badge is visible iff the count is positive, and when positive the badge
label is the count's decimal rendering. -/
theorem unread_badge_iff_positive_count :
    (∀ (item : ListItemState) (chat : Chat),
        ((ChatListItem.setChatData item chat).badgeVisible = true ↔ 0 < chat.unreadCount) ∧
        (0 < chat.unreadCount →
          (ChatListItem.setChatData item chat).badgeLabel = toString chat.unreadCount)) ∧
    (∀ (item : ListItemState) (cd : Chat) (count : Nat), item.chatData = some cd →
        ((ChatListItem.updateUnreadCount item count).badgeVisible = true ↔ 0 < count) ∧
        (0 < count →
          (ChatListItem.updateUnreadCount item count).badgeLabel = toString count)) := by
  refine ⟨?_, ?_⟩
  · intro item chat
    refine ⟨?_, fun h => ?_⟩
    · simp [ChatListItem.setChatData]
    · simp [ChatListItem.setChatData, h]
  · intro item cd count h
    by_cases hc : 0 < count
    · simp [ChatListItem.updateUnreadCount, h, hc]
    · simp [ChatListItem.updateUnreadCount, h, hc]

/-- C6 witness: binding the "Bob Smith" chat (3 unread) shows badge "3", and
updating that row to 7 unread shows badge "7". -/
theorem unread_badge_iff_positive_count_witness :
    (ChatListItem.setChatData {} (mockChats.getD 1 default)).badgeLabel
        = toString (mockChats.getD 1 default).unreadCount ∧
    (ChatListItem.updateUnreadCount
        (ChatListItem.setChatData {} (mockChats.getD 1 default)) 7).badgeLabel
        = toString 7 :=
  ⟨(unread_badge_iff_positive_count.1 {} (mockChats.getD 1 default)).2 (by decide),
    ((unread_badge_iff_positive_count.2
        (ChatListItem.setChatData {} (mockChats.getD 1 default))
        (mockChats.getD 1 default) 7 rfl).2 (by decide))⟩

/-- C7: for every own message bound by `MessageBubble.setMessageData`, the
status icon is shown and named by the direct status-to-icon table — SENT →
"emblem-default-symbolic" (sent), DELIVERED → "emblem-ok-symbolic" (delivered),
READ → "emblem-read-symbolic" (read), FAILED → "dialog-error-symbolic" (error)
— and a message with no status falls to the switch's default branch,
"emblem-synchronizing-symbolic" (the "sending"/pending icon). -/
theorem own_message_status_icon_table (b : BubbleState) (m : Message)
    (h : m.isOwn = true) :
    (MessageBubble.setMessageData b m).statusVisible = true ∧
    (MessageBubble.setMessageData b m).statusIconName =
      (match m.status with
       | some MessageStatus.sent => "emblem-default-symbolic"
       | some MessageStatus.delivered => "emblem-ok-symbolic"
       | some MessageStatus.read => "emblem-read-symbolic"
       | some MessageStatus.failed => "dialog-error-symbolic"
       | none => "emblem-synchronizing-symbolic") := by
  cases hs : m.status with
  | none => simp [MessageBubble.setMessageData, MessageBubble.updateStatusIcon, h, hs]
  | some s =>
      cases s <;>
        simp [MessageBubble.setMessageData, MessageBubble.updateStatusIcon, h, hs]

/-- C7 witness: an own DELIVERED message gets the "delivered" icon, and an own
message with no status gets the "sending" icon. -/
theorem own_message_status_icon_table_witness :
    (MessageBubble.setMessageData {}
        { id := 1, chatId := 1, text := "hi", timestamp := "10:00 AM", isOwn := true,
          status := some MessageStatus.delivered }).statusIconName
      = "emblem-ok-symbolic" ∧
    (MessageBubble.setMessageData {}
        { id := 2, chatId := 1, text := "yo", timestamp := "10:01 AM",
          isOwn := true }).statusIconName
      = "emblem-synchronizing-symbolic" :=
  ⟨(own_message_status_icon_table {}
      { id := 1, chatId := 1, text := "hi", timestamp := "10:00 AM", isOwn := true,
        status := some MessageStatus.delivered } rfl).2,
    (own_message_status_icon_table {}
      { id := 2, chatId := 1, text := "yo", timestamp := "10:01 AM",
        isOwn := true } rfl).2⟩

/-- C8 counterexample: `formatTimestamp` applied to the same arguments — the
string "10:30 AM" with default options — returns different strings depending on
the hidden clock: called at 09:00 of day 10 it renders a weekday name (the
anchored 10:30 AM lies in the future, so `daysDiff` is -1 and the `< 7` branch
fires), while called at 11:00 of the same day it renders the time.  The result
depends on the current clock, so the function is not pure in its arguments. -/
theorem formatTimestamp_depends_on_clock :
    formatTimestamp (TimestampInput.str "10:30 AM") {}
        { day := 10, msOfDay := 32400000 } = "Sun" ∧
    formatTimestamp (TimestampInput.str "10:30 AM") {}
        { day := 10, msOfDay := 39600000 } = "10:30 AM" := by
  constructor <;> rfl

/-- C8 (amended): `formatTimestamp` is deterministic only relative to the
current clock, which it reads via `new Date()`: with a Date input and the
timeOnly (or dateOnly) option its result is independent of the current time,
but the default bucketing, relative mode, and bare time-string parsing consult
the clock, so two invocations with the same arguments can differ (see
`formatTimestamp_depends_on_clock`). -/
theorem formatTimestamp_clock_independent_modes (d : DateTime) (n1 n2 : DateTime) :
    formatTimestamp (TimestampInput.date d) { timeOnly := true } n1
        = formatTimestamp (TimestampInput.date d) { timeOnly := true } n2 ∧
    formatTimestamp (TimestampInput.date d) { dateOnly := true } n1
        = formatTimestamp (TimestampInput.date d) { dateOnly := true } n2 :=
  ⟨rfl, rfl⟩

/-- C9: `ChatService.sendMessage` fails exactly when no user is logged in or
the text trims to empty; every failure leaves the service state (chats and
messages alike) unchanged; and every success appends exactly one message, whose
text is the trimmed input, to the end of the messages collection. -/
theorem sendMessage_atomic (st : ServiceState) (chatId : Nat) (text now : String) :
    ((ChatService.sendMessage st chatId text now).1.isErr = true ↔
        (st.currentUser = none ∨ jsTrim text = "")) ∧
    ((ChatService.sendMessage st chatId text now).1.isErr = true →
        (ChatService.sendMessage st chatId text now).2 = st) ∧
    ((ChatService.sendMessage st chatId text now).1.isErr = false →
        (ChatService.sendMessage st chatId text now).2.messages =
          st.messages ++ [{ id := st.messages.length + 1, chatId := chatId,
                            text := jsTrim text, timestamp := now, isOwn := true }]) := by
  cases hu : st.currentUser with
  | none => simp [ChatService.sendMessage, hu, Resp.isErr]
  | some u =>
      by_cases ht : jsTrim text = "" <;>
        simp [ChatService.sendMessage, hu, ht, Resp.isErr]

/-- C9 witness: with nobody logged in the state is unchanged, and with a user
logged in sending "  hi  " appends exactly the trimmed message. -/
theorem sendMessage_atomic_witness :
    (ChatService.sendMessage ServiceState.initial 1 "hi" "10:00 AM").2
        = ServiceState.initial ∧
    (ChatService.sendMessage stWithUser 1 "  hi  " "10:31 AM").2.messages =
      stWithUser.messages ++ [{ id := stWithUser.messages.length + 1, chatId := 1,
                                text := jsTrim "  hi  ", timestamp := "10:31 AM",
                                isOwn := true }] :=
  ⟨(sendMessage_atomic ServiceState.initial 1 "hi" "10:00 AM").2.1 (by decide),
    (sendMessage_atomic stWithUser 1 "  hi  " "10:31 AM").2.2 (by decide)⟩

/-- C10: `ChatService.getMessages` with a chatId that matches no stored message
returns success with an empty page and totalItems 0, whereas
`ChatService.getChat` and `ChatService.markChatAsRead` answer a chatId that
matches no chat with the "Chat not found" error. -/
theorem getMessages_unknown_chat_ok (st : ServiceState) (chatId : Nat) :
    ((∀ m ∈ st.messages, m.chatId ≠ chatId) →
        ChatService.getMessages st chatId 1 100 =
          Resp.ok { messages := [],
                    pagination := { page := 1, pageSize := 100,
                                    totalItems := 0, totalPages := 0 } }) ∧
    (st.chats.find? (fun c => c.id == chatId) = none →
        ChatService.getChat st chatId = Resp.err "Chat not found" ∧
        (ChatService.markChatAsRead st chatId).1 = Resp.err "Chat not found") := by
  refine ⟨fun h => ?_, fun h => ?_⟩
  · have hfil : st.messages.filter (fun msg => msg.chatId == chatId) = [] := by
      rw [List.filter_eq_nil_iff]
      intro a ha
      simpa using h a ha
    simp [ChatService.getMessages, hfil, listSlice, ceilDiv]
  · exact ⟨by simp [ChatService.getChat, h], by simp [ChatService.markChatAsRead, h]⟩

/-- C10 witness: chat id 99 exists nowhere in the initial mock data: getMessages
answers an empty success page while getChat and markChatAsRead answer the
"Chat not found" error. -/
theorem getMessages_unknown_chat_ok_witness :
    ChatService.getMessages ServiceState.initial 99 1 100 =
        Resp.ok { messages := [],
                  pagination := { page := 1, pageSize := 100,
                                  totalItems := 0, totalPages := 0 } } ∧
    (ChatService.getChat ServiceState.initial 99 = Resp.err "Chat not found" ∧
      (ChatService.markChatAsRead ServiceState.initial 99).1
        = Resp.err "Chat not found") :=
  ⟨(getMessages_unknown_chat_ok ServiceState.initial 99).1 (by decide),
    (getMessages_unknown_chat_ok ServiceState.initial 99).2 (by decide)⟩
